import Mathlib

/-!
Verification development for the DOI/Title → Scopus ID extractor
(`scopus_id_extractor.py`).  The Python source is shallowly embedded:
strings are lists of characters, Python's ASCII-relevant `str.lower` /
`str.strip` are modelled character-wise, regular-expression matching of
the DOI pattern is compiled by hand into a deterministic matcher, and
the stateful pieces (global counters, the response cache, checkpointing)
are modelled by explicit state passing.  Network responses are modelled
as an inductive of the observable outcomes (status code plus parsed JSON
body, or a transport error).
-/

namespace ScopusExtractor

/-- Python strings are modelled as lists of characters. -/
abbrev PyStr := List Char

/-- Model of Python `str.lower` on one character.  Python lowercases the
full Unicode range, but every string this program manipulates in a
case-sensitive position (DOIs, cache keys) is ASCII, so the embedding
lowercases exactly the ASCII range `A`–`Z` (code points 65–90). -/
def pyLowerChar (c : Char) : Char :=
  if 65 ≤ c.toNat ∧ c.toNat ≤ 90 then Char.ofNat (c.toNat + 32) else c

/-- Model of Python `str.lower`: character-wise lowering. -/
def pyLower (s : PyStr) : PyStr := s.map pyLowerChar

/-- Whitespace as stripped by Python `str.strip()` with no argument,
restricted to the ASCII whitespace characters (space, tab, newline,
carriage return, vertical tab, form feed). -/
def isPyWs (c : Char) : Bool :=
  c.toNat == 32 || c.toNat == 9 || c.toNat == 10 ||
  c.toNat == 13 || c.toNat == 11 || c.toNat == 12

/-- Model of Python `str.strip()`: remove leading and trailing
whitespace. -/
def pyStrip (s : PyStr) : PyStr :=
  List.rdropWhile isPyWs (List.dropWhile isPyWs s)

/-- The normalized key used by `InputValidator.detect_duplicates`
(source line 102: `item.lower().strip()`). -/
def dedupKeyOf (item : PyStr) : PyStr := pyStrip (pyLower item)

/-- The normalized key used by `ResultCache.get` and `ResultCache.set`
(source lines 172 and 178: `key.lower().strip()`). -/
def cacheKeyOf (key : PyStr) : PyStr := pyStrip (pyLower key)

/-- Characters allowed in the DOI suffix by `DOI_PATTERN`
(`[-._;()/:A-Z0-9]` under `re.IGNORECASE`). -/
def isDoiBodyChar (c : Char) : Bool :=
  c == '-' || c == '.' || c == '_' || c == ';' || c == '(' || c == ')' ||
  c == '/' || c == ':' || c.isDigit ||
  (('A' ≤ c && c ≤ 'Z') || ('a' ≤ c && c ≤ 'z'))

/-- Hand-compiled matcher for `DOI_PATTERN`, source line 59:
`^10\.\d\x7b4,9\x7d/[-._;()/:A-Z0-9]+$` with `re.IGNORECASE`.
The greedy digit group followed by the literal `/` forces the whole
maximal digit run to be consumed, so the regex matches exactly when the
string is `10.` followed by a digit run of length 4–9, then `/`, then a
nonempty run of allowed suffix characters reaching the end. -/
def doiPatternMatch (s : PyStr) : Bool :=
  match s with
  | '1' :: '0' :: '.' :: rest =>
    let digits := rest.takeWhile Char.isDigit
    let afterDigits := rest.dropWhile Char.isDigit
    decide (4 ≤ digits.length) && decide (digits.length ≤ 9) &&
    (match afterDigits with
     | '/' :: body => !body.isEmpty && body.all isDoiBodyChar
     | _ => false)
  | _ => false

/-- Validation failures.  The source returns `(False, msg)` pairs;
`emptyDoi` stands for `"Empty DOI"`, `invalidFormat` for
`"Invalid DOI format: ..."`, `emptyTitle` for `"Empty title"` and
`titleTooShort` for `"Title too short ..."`.  A `none` result below
stands for the `(True, "")` success case. -/
inductive ValidationFailure where
  | emptyDoi
  | invalidFormat
  | emptyTitle
  | titleTooShort
deriving DecidableEq, Repr

/-- `InputValidator.validate_doi` (source lines 74–82): strip, reject
blank input, reject anything not matching `DOI_PATTERN`. -/
def validate_doi (doi : PyStr) : Option ValidationFailure :=
  let d := pyStrip doi
  if d.isEmpty then some ValidationFailure.emptyDoi
  else if doiPatternMatch d then none
  else some ValidationFailure.invalidFormat

/-- `MIN_TITLE_LENGTH` (source line 60). -/
def MIN_TITLE_LENGTH : Nat := 10

/-- `InputValidator.validate_title` (source lines 84–92). -/
def validate_title (title : PyStr) : Option ValidationFailure :=
  let t := pyStrip title
  if t.isEmpty then some ValidationFailure.emptyTitle
  else if t.length < MIN_TITLE_LENGTH then some ValidationFailure.titleTooShort
  else none

/-- Lookup in the `seen` dictionary of `detect_duplicates`, modelled as
an association list from normalized key to first-seen 0-based index. -/
def seenLookup : List (PyStr × Nat) → PyStr → Option Nat
  | [], _ => none
  | (k, v) :: rest, key => if k = key then some v else seenLookup rest key

/-- Recursion of `InputValidator.detect_duplicates` (source lines
94–109): one forward pass over the enumerated items; a later occurrence
of a normalized key becomes a duplicate record
`(i + 1, item, seen[normalized] + 1)`, a first occurrence is added to
`seen` and to the unique list. -/
def detectDupGo : List (PyStr × Nat) → Nat → List PyStr →
    List PyStr × List (Nat × PyStr × Nat)
  | _, _, [] => ([], [])
  | seen, i, item :: rest =>
    let normalized := dedupKeyOf item
    match seenLookup seen normalized with
    | some j =>
      let p := detectDupGo seen (i + 1) rest
      (p.1, (i + 1, item, j + 1) :: p.2)
    | none =>
      let p := detectDupGo ((normalized, i) :: seen) (i + 1) rest
      (item :: p.1, p.2)

/-- `InputValidator.detect_duplicates`: returns
`(unique_items, duplicates)`. -/
def detect_duplicates (items : List PyStr) :
    List PyStr × List (Nat × PyStr × Nat) :=
  detectDupGo [] 0 items

/-- Search mode selected by the `--doi` / `--title` CLI flags. -/
inductive SearchMode where
  | doi
  | title
deriving DecidableEq, Repr

/-- Partition step of `InputValidator.validate_batch` (source lines
119–124): each item is validated, valid items are kept in order, invalid
items are recorded with their 1-based line number and failure. -/
def validatePartition (validateFn : PyStr → Option ValidationFailure) :
    Nat → List PyStr → List PyStr × List (Nat × PyStr × ValidationFailure)
  | _, [] => ([], [])
  | i, item :: rest =>
    let p := validatePartition validateFn (i + 1) rest
    match validateFn item with
    | none => (item :: p.1, p.2)
    | some e => (p.1, (i + 1, item, e) :: p.2)

/-- The validation report dictionary built by
`InputValidator.validate_batch` (source lines 128–137). -/
structure ValidationReport where
  total : Nat
  valid : Nat
  invalid : Nat
  invalid_items : List (Nat × PyStr × ValidationFailure)
  unique : Nat
  duplicates : Nat
  duplicate_items : List (Nat × PyStr × Nat)
  unique_items : List PyStr
deriving DecidableEq, Repr

/-- `InputValidator.validate_batch` (source lines 111–137): validate
every item with the mode-appropriate validator, then run
`detect_duplicates` over the valid subset only. -/
def validate_batch (items : List PyStr) (search_mode : SearchMode) :
    ValidationReport :=
  let validateFn := match search_mode with
    | SearchMode.doi => validate_doi
    | SearchMode.title => validate_title
  let p := validatePartition validateFn 0 items
  let d := detect_duplicates p.1
  { total := items.length
    valid := p.1.length
    invalid := p.2.length
    invalid_items := p.2
    unique := d.1.length
    duplicates := d.2.length
    duplicate_items := d.2
    unique_items := d.1 }

/-- The working-set selection in `main` (source lines 718–722): both the
`--skip-duplicates` branch and the else branch assign
`validation_report['unique_items']`. -/
def selectWorkingSet (skip_duplicates : Bool) (report : ValidationReport) :
    List PyStr :=
  if skip_duplicates && decide (0 < report.duplicates) then report.unique_items
  else report.unique_items

/-- Shorthand for embedding a Lean string literal as a Python string. -/
def pys (s : String) : PyStr := s.toList

/-! Network layer: the four lookup functions.  The global counters
`requests_made` and `errors_count` (source lines 63–64) and the
`time.sleep` calls are modelled by explicit state passing through
`NetEffects`; the process-wide `interrupt_flag` (source line 62) is a
boolean parameter; `raise KeyboardInterrupt()` is `Except.error ()`.  An
HTTP exchange is modelled by its observable outcome: a status code with
the parsed JSON body, or a transport-level `requests.RequestException`. -/

/-- The global counters plus the cumulated `time.sleep` durations. -/
structure NetEffects where
  requests_made : Nat
  errors_count : Nat
  sleep_units : Nat
deriving DecidableEq, Repr

/-- One entry of the Scopus `search-results.entry` list, with the fields
the program reads (`dc:title`, `eid`, `prism:doi`); `none` models a
missing key (`entry.get(...)` returning `None`). -/
structure ScopusEntry where
  dcTitle : Option PyStr
  eid : Option PyStr
  prismDoi : Option PyStr
deriving DecidableEq, Repr

/-- Observable outcome of one HTTP request: a response with its status
code and parsed body, or a transport error
(`requests.RequestException`).  The body is only consulted on status
200.  An empty Scopus entry list also models a missing
`search-results.entry` key (both are falsy in Python). -/
inductive HttpOutcome (β : Type) where
  | response (status_code : Nat) (body : β)
  | transportError
deriving DecidableEq, Repr

/-- `search_scopus_api` (source lines 305–339): check the interrupt
flag, count the request, and on status 200 with a nonempty entry list
return `(dc:title, eid)` of the first entry; on 401 log and fall through
to the failure counter; on 429 sleep 5 then fall through; on any other
status, an empty entry list, or a transport error count a failure and
return `(None, None)`. -/
def search_scopus_api (interrupt_flag : Bool)
    (resp : HttpOutcome (List ScopusEntry)) (eff : NetEffects) :
    Except Unit ((Option PyStr × Option PyStr) × NetEffects) :=
  if interrupt_flag then Except.error () else
  let eff1 : NetEffects := { eff with requests_made := eff.requests_made + 1 }
  match resp with
  | HttpOutcome.response code body =>
    if code = 200 then
      match body with
      | entry :: _ => Except.ok ((entry.dcTitle, entry.eid), eff1)
      | [] => Except.ok ((none, none),
          { eff1 with errors_count := eff1.errors_count + 1 })
    else if code = 401 then
      Except.ok ((none, none), { eff1 with errors_count := eff1.errors_count + 1 })
    else if code = 429 then
      Except.ok ((none, none),
        { eff1 with sleep_units := eff1.sleep_units + 5,
                    errors_count := eff1.errors_count + 1 })
    else
      Except.ok ((none, none), { eff1 with errors_count := eff1.errors_count + 1 })
  | HttpOutcome.transportError =>
    Except.ok ((none, none), { eff1 with errors_count := eff1.errors_count + 1 })

/-- `search_openalex_doi` (source lines 341–362): on status 200 return
`data.get('title')` without touching the error counter; on any non-200
status or transport error count a failure and return `None`.  There is
no 429 special case in this function. -/
def search_openalex_doi (interrupt_flag : Bool)
    (resp : HttpOutcome (Option PyStr)) (eff : NetEffects) :
    Except Unit (Option PyStr × NetEffects) :=
  if interrupt_flag then Except.error () else
  let eff1 : NetEffects := { eff with requests_made := eff.requests_made + 1 }
  match resp with
  | HttpOutcome.response code body =>
    if code = 200 then Except.ok (body, eff1)
    else Except.ok (none, { eff1 with errors_count := eff1.errors_count + 1 })
  | HttpOutcome.transportError =>
    Except.ok (none, { eff1 with errors_count := eff1.errors_count + 1 })

/-- `search_scopus_api_title` (source lines 364–400): like
`search_scopus_api` but returns `(dc:title, eid, prism:doi)` of the
first entry. -/
def search_scopus_api_title (interrupt_flag : Bool)
    (resp : HttpOutcome (List ScopusEntry)) (eff : NetEffects) :
    Except Unit ((Option PyStr × Option PyStr × Option PyStr) × NetEffects) :=
  if interrupt_flag then Except.error () else
  let eff1 : NetEffects := { eff with requests_made := eff.requests_made + 1 }
  match resp with
  | HttpOutcome.response code body =>
    if code = 200 then
      match body with
      | entry :: _ => Except.ok ((entry.dcTitle, entry.eid, entry.prismDoi), eff1)
      | [] => Except.ok ((none, none, none),
          { eff1 with errors_count := eff1.errors_count + 1 })
    else if code = 401 then
      Except.ok ((none, none, none),
        { eff1 with errors_count := eff1.errors_count + 1 })
    else if code = 429 then
      Except.ok ((none, none, none),
        { eff1 with sleep_units := eff1.sleep_units + 5,
                    errors_count := eff1.errors_count + 1 })
    else
      Except.ok ((none, none, none),
        { eff1 with errors_count := eff1.errors_count + 1 })
  | HttpOutcome.transportError =>
    Except.ok ((none, none, none),
      { eff1 with errors_count := eff1.errors_count + 1 })

/-- Model of Python `s.replace(old, '')` for a nonempty pattern: remove
every occurrence of `old`, scanning left to right without overlap. -/
def pyRemoveAll (o : Char) (old : List Char) : PyStr → PyStr
  | [] => []
  | c :: rest =>
    if (o :: old).isPrefixOf (c :: rest) then
      pyRemoveAll o old (List.drop (o :: old).length (c :: rest))
    else
      c :: pyRemoveAll o old rest
termination_by s => s.length
decreasing_by
  · simp only [List.length_drop, List.length_cons]
    omega
  · simp

/-- One element of the OpenAlex `results` list, with the fields the
program reads.  `idsDoi = none` models a missing or falsy `ids` map as
well as an `ids` map without a `doi` key. -/
structure OAWork where
  title : Option PyStr
  idsDoi : Option PyStr
deriving DecidableEq, Repr

/-- Model of `s.replace(old, '')` taking the pattern as one string; an
empty pattern leaves the string unchanged (the program only uses the
fixed nonempty pattern below). -/
def pyRemoveAllStr (old : PyStr) (s : PyStr) : PyStr :=
  match old with
  | [] => s
  | o :: rest => pyRemoveAll o rest s

/-- The URL part stripped from OpenAlex DOIs
(`.replace('https://doi.org/', '')`). -/
def doiOrgUrl : PyStr := pys "https://doi.org/"

/-- `search_openalex_title` (source lines 402–432): on status 200 with a
nonempty `results` list return the first work's title and its DOI with
the `https://doi.org/` part removed; on an empty results list, any
non-200 status, or a transport error count a failure and return
`(None, None)`.  There is no 429 special case in this function. -/
def search_openalex_title (interrupt_flag : Bool)
    (resp : HttpOutcome (List OAWork)) (eff : NetEffects) :
    Except Unit ((Option PyStr × Option PyStr) × NetEffects) :=
  if interrupt_flag then Except.error () else
  let eff1 : NetEffects := { eff with requests_made := eff.requests_made + 1 }
  match resp with
  | HttpOutcome.response code body =>
    if code = 200 then
      match body with
      | work :: _ =>
        Except.ok ((work.title, work.idsDoi.map (pyRemoveAllStr doiOrgUrl)), eff1)
      | [] => Except.ok ((none, none),
          { eff1 with errors_count := eff1.errors_count + 1 })
    else Except.ok ((none, none),
      { eff1 with errors_count := eff1.errors_count + 1 })
  | HttpOutcome.transportError =>
    Except.ok ((none, none), { eff1 with errors_count := eff1.errors_count + 1 })

/-- Discriminator for the success case of `Except Unit α`. -/
def isOkB {α : Type} : Except Unit α → Bool
  | Except.ok _ => true
  | Except.error _ => false

/-- The summary block printed by `save_final_results` (source lines
504–524): `successful` counts rows whose `scopus_id` is non-null
(`notna`), `failed` the null ones, and the `Errors` line prints the
global `errors_count` as-is. -/
structure Summary where
  total : Nat
  found : Nat
  not_found : Nat
  api_requests : Nat
  cache_hits : Nat
  errors : Nat
deriving DecidableEq, Repr

/-- The figures printed by `save_final_results`, computed from the
`scopus_id` column of the results and the global counters. -/
def finalSummary (scopusIds : List (Option PyStr)) (eff : NetEffects)
    (hits : Nat) : Summary :=
  { total := scopusIds.length
    found := (scopusIds.filter (fun o => o.isSome)).length
    not_found := (scopusIds.filter (fun o => o.isNone)).length
    api_requests := eff.requests_made
    cache_hits := hits
    errors := eff.errors_count }

/-! Cache and per-item processing. -/

/-- Python truthiness of an optional string (`if not scopus_id:` and
`if scopus_id and use_cache:`): `None` and the empty string are falsy. -/
def pyTruthy (o : Option PyStr) : Bool :=
  match o with
  | none => false
  | some s => !s.isEmpty

/-- One cache value: the dict stored by `ResultCache.set` with the
`cached_at` stamp it adds (source line 179).  DOI-mode writes store no
`doi` key, modelled as `doi = none`; timestamps are abstract numbers. -/
structure CacheVal where
  title : Option PyStr
  scopus_id : Option PyStr
  doi : Option PyStr
  source : Option PyStr
  cached_at : Nat
deriving DecidableEq, Repr

/-- The in-memory cache dict, modelled as an association list from
normalized key to value.  Loaded entries are assumed well-formed
(nonempty dicts), so presence coincides with Python truthiness of
`cache.get(...)`. -/
abbrev CacheMap := List (PyStr × CacheVal)

/-- Dict lookup. -/
def assocFind : CacheMap → PyStr → Option CacheVal
  | [], _ => none
  | (k, v) :: rest, key => if k = key then some v else assocFind rest key

/-- Dict assignment (`self.cache[normalized_key] = value`): overwrite in
place or append. -/
def assocUpdate : CacheMap → PyStr → CacheVal → CacheMap
  | [], k, v => [(k, v)]
  | (k', v') :: rest, k, v =>
    if k' = k then (k, v) :: rest else (k', v') :: assocUpdate rest k v

/-- `ResultCache.get` (source lines 169–173): look up under the
normalized key. -/
def cacheGet (cache : CacheMap) (key : PyStr) : Option CacheVal :=
  assocFind cache (cacheKeyOf key)

/-- `ResultCache.set` (source lines 175–181): stamp the value with the
current time and store it under the normalized key (the synchronous
persist-to-disk is outside the model). -/
def cacheSet (now : Nat) (cache : CacheMap) (key : PyStr)
    (title scopus_id doi source : Option PyStr) : CacheMap :=
  assocUpdate cache (cacheKeyOf key) ⟨title, scopus_id, doi, source, now⟩

/-- The `'source': 'scopus'` field written on cache writes. -/
def sourceScopus : Option PyStr := some (pys "scopus")

/-- `DELAY_BETWEEN_REQUESTS` (source line 55). -/
def DELAY_BETWEEN_REQUESTS : Nat := 1

/-- Mutable state threaded through one item's processing: the global
counters plus the cache contents. -/
structure RunState where
  eff : NetEffects
  cache_hits : Nat
  cache : CacheMap
deriving DecidableEq, Repr

/-- The result dict built by `process_doi_item`. -/
structure DoiRecord where
  doi : PyStr
  title : Option PyStr
  scopus_id : Option PyStr
  cached : Bool
deriving DecidableEq, Repr

/-- The result dict built by `process_title_item`. -/
structure TitleRecord where
  search_title : PyStr
  found_title : Option PyStr
  scopus_id : Option PyStr
  doi : Option PyStr
  cached : Bool
deriving DecidableEq, Repr

/-- `process_doi_item` (source lines 528–558): read-through cache, then
primary Scopus search; if no Scopus ID was produced, recover a title via
the OpenAlex fallback; write the cache only when a Scopus ID was found
and caching is enabled; sleep the fixed delay before returning. -/
def process_doi_item (interrupt_flag : Bool)
    (primary : HttpOutcome (List ScopusEntry))
    (fallback : HttpOutcome (Option PyStr)) (now : Nat)
    (item : PyStr) (use_cache : Bool) (st : RunState) :
    Except Unit (DoiRecord × RunState) :=
  match (if use_cache then cacheGet st.cache item else none) with
  | some cv =>
    Except.ok (⟨item, cv.title, cv.scopus_id, true⟩,
      { st with cache_hits := st.cache_hits + 1 })
  | none =>
    match search_scopus_api interrupt_flag primary st.eff with
    | Except.error e => Except.error e
    | Except.ok ((title, scopus_id), eff1) =>
      match (if pyTruthy scopus_id then Except.ok (title, eff1)
             else search_openalex_doi interrupt_flag fallback eff1) with
      | Except.error e => Except.error e
      | Except.ok (title2, eff2) =>
        Except.ok (⟨item, title2, scopus_id, false⟩,
          { eff := { eff2 with
              sleep_units := eff2.sleep_units + DELAY_BETWEEN_REQUESTS },
            cache_hits := st.cache_hits,
            cache := if pyTruthy scopus_id && use_cache then
                cacheSet now st.cache item title2 scopus_id none sourceScopus
              else st.cache })

/-- `process_title_item` (source lines 560–592): like
`process_doi_item` but the fallback overwrites both the found title and
the DOI, and title-mode cache writes include the `doi` field. -/
def process_title_item (interrupt_flag : Bool)
    (primary : HttpOutcome (List ScopusEntry))
    (fallback : HttpOutcome (List OAWork)) (now : Nat)
    (item : PyStr) (use_cache : Bool) (st : RunState) :
    Except Unit (TitleRecord × RunState) :=
  match (if use_cache then cacheGet st.cache item else none) with
  | some cv =>
    Except.ok (⟨item, cv.title, cv.scopus_id, cv.doi, true⟩,
      { st with cache_hits := st.cache_hits + 1 })
  | none =>
    match search_scopus_api_title interrupt_flag primary st.eff with
    | Except.error e => Except.error e
    | Except.ok ((title_found, scopus_id, doi), eff1) =>
      match (if pyTruthy scopus_id then Except.ok ((title_found, doi), eff1)
             else search_openalex_title interrupt_flag fallback eff1) with
      | Except.error e => Except.error e
      | Except.ok ((title2, doi2), eff2) =>
        Except.ok (⟨item, title2, scopus_id, doi2, false⟩,
          { eff := { eff2 with
              sleep_units := eff2.sleep_units + DELAY_BETWEEN_REQUESTS },
            cache_hits := st.cache_hits,
            cache := if pyTruthy scopus_id && use_cache then
                cacheSet now st.cache item title2 scopus_id doi2 sourceScopus
              else st.cache })

/-! Checkpointing and the batch loop. -/

/-- The checkpoint metadata dict built in `main` (source lines
807–812). -/
structure CheckpointMeta where
  search_mode : SearchMode
  total_items : Nat
  last_processed_index : Nat
  timestamp : Nat
deriving DecidableEq, Repr

/-- The checkpoint record written by `save_checkpoint` (source lines
492–502). -/
structure Checkpoint (β : Type) where
  metadata : CheckpointMeta
  results : List β

/-- `save_checkpoint`: package metadata and accumulated results (the
JSON write is outside the model; last write wins). -/
def save_checkpoint {β : Type} (metadata : CheckpointMeta)
    (results : List β) : Checkpoint β :=
  ⟨metadata, results⟩

/-- The sequential processing loop of `main` (source lines 751–817)
restricted to its result accumulation: each processed item appends
exactly one record to `results`.  The per-item lookup (cache plus
network) is abstracted by the deterministic record function `f`. -/
def processingLoop {β : Type} (f : PyStr → β) : List PyStr → List β → List β
  | [], results => results
  | item :: rest, results => processingLoop f rest (results ++ [f item])

/-- An uninterrupted run over the working set: `start_index = 0` and an
empty accumulator (source lines 728–729, 741, 751). -/
def runFromStart {β : Type} (f : PyStr → β) (items : List PyStr) : List β :=
  processingLoop f items []

/-- The checkpoint a fresh run takes after processing `i = k` items
(source lines 806–813): `last_processed_index = start_index + i = 0 + k`
and the records of the first `k` items. -/
def checkpointAfter {β : Type} (f : PyStr → β) (items : List PyStr)
    (mode : SearchMode) (total now k : Nat) : Checkpoint β :=
  save_checkpoint ⟨mode, total, 0 + k, now⟩ (processingLoop f (items.take k) [])

/-- A resumed run (source lines 731–741, 751): the start index and the
result accumulator are seeded from the checkpoint and the loop covers
`items[start_index:]`. -/
def resumeRun {β : Type} (f : PyStr → β) (items : List PyStr)
    (cp : Checkpoint β) : List β :=
  processingLoop f (items.drop cp.metadata.last_processed_index) cp.results

/-! Frame and fallback properties of the two per-item processors. -/

/-- The `(title, doi)` pair the OpenAlex title fallback yields for a
given response: the first work's fields on a 200 with results, all-null
otherwise. -/
def oaTitleFallbackOf (resp : HttpOutcome (List OAWork)) :
    Option PyStr × Option PyStr :=
  match resp with
  | HttpOutcome.response code body =>
    if code = 200 then
      match body with
      | work :: _ => (work.title, work.idsDoi.map (pyRemoveAllStr doiOrgUrl))
      | [] => (none, none)
    else (none, none)
  | HttpOutcome.transportError => (none, none)

/-- The title the OpenAlex DOI fallback yields for a given response. -/
def oaDoiFallbackTitleOf (resp : HttpOutcome (Option PyStr)) : Option PyStr :=
  match resp with
  | HttpOutcome.response code body => if code = 200 then body else none
  | HttpOutcome.transportError => none

/-- A primary Scopus response carrying a Scopus ID, used to instantiate
the frame property. -/
def wDoiPrimaryFound : HttpOutcome (List ScopusEntry) :=
  HttpOutcome.response 200 [⟨some (pys "T"), some (pys "SID"), none⟩]

/-- A primary Scopus response with a recovered title but no Scopus ID,
used to instantiate the fallback-override property. -/
def wPrimaryNoId : HttpOutcome (List ScopusEntry) :=
  HttpOutcome.response 200 [⟨some (pys "T"), none, some (pys "D")⟩]

/-- A fresh run state: zero counters, empty cache. -/
def wState0 : RunState := ⟨⟨0, 0, 0⟩, 0, []⟩

/-! Character-level facts about the models of `str.lower` and
`str.strip`. -/

theorem charOfNat_toNat {n : Nat} (h : n.isValidChar) :
    (Char.ofNat n).toNat = n := by
  simp [Char.ofNat, h, Char.ofNatAux, Char.toNat, UInt32.toNat, UInt32.ofNatCore]

theorem toNat_pyLowerChar (c : Char) :
    (pyLowerChar c).toNat =
      if 65 ≤ c.toNat ∧ c.toNat ≤ 90 then c.toNat + 32 else c.toNat := by
  by_cases h : 65 ≤ c.toNat ∧ c.toNat ≤ 90
  · rw [pyLowerChar, if_pos h, if_pos h, charOfNat_toNat]
    exact Or.inl (by omega)
  · rw [pyLowerChar, if_neg h, if_neg h]

theorem pyLowerChar_idem (c : Char) :
    pyLowerChar (pyLowerChar c) = pyLowerChar c := by
  by_cases h : 65 ≤ c.toNat ∧ c.toNat ≤ 90
  · have h1 : (pyLowerChar c).toNat = c.toNat + 32 := by
      rw [toNat_pyLowerChar, if_pos h]
    conv_lhs => rw [pyLowerChar]
    rw [if_neg]
    intro hcontra
    rw [h1] at hcontra
    omega
  · have h1 : pyLowerChar c = c := by rw [pyLowerChar, if_neg h]
    rw [h1]
    exact h1

theorem isPyWs_pyLowerChar (c : Char) : isPyWs (pyLowerChar c) = isPyWs c := by
  have aux : ∀ m : Nat, 33 ≤ m →
      (m == 32 || m == 9 || m == 10 || m == 13 || m == 11 || m == 12) = false := by
    intro m hm
    simp only [Bool.or_eq_false_iff, beq_eq_false_iff_ne, ne_eq]
    omega
  by_cases h : 65 ≤ c.toNat ∧ c.toNat ≤ 90
  · have h1 : (pyLowerChar c).toNat = c.toNat + 32 := by
      rw [toNat_pyLowerChar, if_pos h]
    rw [isPyWs, isPyWs, h1, aux _ (by omega), aux _ (by omega)]
  · have h1 : pyLowerChar c = c := by rw [pyLowerChar, if_neg h]
    rw [h1]

theorem head_dropWhile_false {α : Type} (p : α → Bool) :
    ∀ (l r : List α) (x : α), List.dropWhile p l = x :: r → p x = false := by
  intro l
  induction l with
  | nil => intro r x h; simp [List.dropWhile] at h
  | cons c cs ih =>
    intro r x h
    by_cases hc : p c
    · rw [List.dropWhile_cons_of_pos hc] at h
      exact ih r x h
    · rw [List.dropWhile_cons_of_neg hc] at h
      cases h
      simpa using hc

theorem dropWhile_rdropWhile_dropWhile (p : Char → Bool) (l : List Char) :
    List.dropWhile p ((List.dropWhile p l).rdropWhile p) =
      (List.dropWhile p l).rdropWhile p := by
  rcases m : (List.dropWhile p l).rdropWhile p with _ | ⟨x, xs⟩
  · rfl
  · obtain ⟨t, ht⟩ := List.rdropWhile_prefix (p := p) (l := List.dropWhile p l)
    rw [m] at ht
    have hx : p x = false :=
      head_dropWhile_false p l (xs ++ t) x (by rw [← ht]; rfl)
    rw [List.dropWhile_cons_of_neg (by simp [hx])]

theorem pyStrip_idem (l : PyStr) : pyStrip (pyStrip l) = pyStrip l := by
  unfold pyStrip
  rw [dropWhile_rdropWhile_dropWhile, List.rdropWhile_idempotent]

theorem dropWhile_map_eq (p : Char → Bool) (f : Char → Char)
    (hp : ∀ c, p (f c) = p c) (l : List Char) :
    List.dropWhile p (l.map f) = (List.dropWhile p l).map f := by
  rw [List.dropWhile_map]
  have hfp : (p ∘ f) = p := funext hp
  rw [hfp]

theorem rdropWhile_map_eq (p : Char → Bool) (f : Char → Char)
    (hp : ∀ c, p (f c) = p c) (l : List Char) :
    (l.map f).rdropWhile p = (l.rdropWhile p).map f := by
  unfold List.rdropWhile
  rw [← List.map_reverse, dropWhile_map_eq p f hp, List.map_reverse]

theorem pyStrip_pyLower_comm (l : PyStr) :
    pyStrip (pyLower l) = pyLower (pyStrip l) := by
  unfold pyStrip pyLower
  rw [dropWhile_map_eq isPyWs pyLowerChar isPyWs_pyLowerChar,
    rdropWhile_map_eq isPyWs pyLowerChar isPyWs_pyLowerChar]

theorem pyLower_idem (l : PyStr) : pyLower (pyLower l) = pyLower l := by
  unfold pyLower
  rw [List.map_map]
  have : (pyLowerChar ∘ pyLowerChar) = pyLowerChar := funext pyLowerChar_idem
  rw [this]

theorem dedupKeyOf_idem (s : PyStr) : dedupKeyOf (dedupKeyOf s) = dedupKeyOf s := by
  unfold dedupKeyOf
  calc pyStrip (pyLower (pyStrip (pyLower s)))
      = pyStrip (pyStrip (pyLower (pyLower s))) := by
        rw [← pyStrip_pyLower_comm]
    _ = pyStrip (pyStrip (pyLower s)) := by rw [pyLower_idem]
    _ = pyStrip (pyLower s) := pyStrip_idem _

theorem detectDupGo_sublist :
    ∀ (items : List PyStr) (seen : List (PyStr × Nat)) (i : Nat),
      List.Sublist (detectDupGo seen i items).1 items := by
  intro items
  induction items with
  | nil => intro seen i; simp [detectDupGo]
  | cons item rest ih =>
    intro seen i
    cases h : seenLookup seen (dedupKeyOf item) with
    | none =>
      have heq : (detectDupGo seen i (item :: rest)).1 =
          item :: (detectDupGo ((dedupKeyOf item, i) :: seen) (i + 1) rest).1 := by
        simp [detectDupGo, h]
      rw [heq]
      exact List.cons_sublist_cons.mpr (ih _ _)
    | some j =>
      have heq : (detectDupGo seen i (item :: rest)).1 =
          (detectDupGo seen (i + 1) rest).1 := by
        simp [detectDupGo, h]
      rw [heq]
      exact List.Sublist.cons item (ih _ _)

/-! Claim theorems about validation, deduplication and the working-set
selection. -/

/-- C7: a single normalization function — lowercase then trim — is used
both for duplicate detection in the Validator (`item.lower().strip()`)
and for cache keys in `ResultCache.get` / `ResultCache.set`
(`key.lower().strip()`), and this function is idempotent. -/
theorem claim_C7 :
    (∀ s : PyStr, dedupKeyOf s = cacheKeyOf s) ∧
    (∀ s : PyStr, dedupKeyOf (dedupKeyOf s) = dedupKeyOf s) :=
  ⟨fun _ => rfl, dedupKeyOf_idem⟩

/-- C5: `validate_doi` fails with the empty-input error exactly on blank
(stripped-empty) input, succeeds exactly on strings whose stripped form
matches the DOI grammar `10.<4-9 digits>/<allowed charset>`
(case-insensitive, so any non-match fails with the format error), and in
particular accepts `10.1016/j.softx.2019.100263`, rejects `not-a-doi`
with the format error, and rejects the empty string with the empty-input
error. -/
theorem claim_C5 :
    (∀ s : PyStr, validate_doi s = some ValidationFailure.emptyDoi ↔ pyStrip s = []) ∧
    (∀ s : PyStr, validate_doi s = none ↔ doiPatternMatch (pyStrip s) = true) ∧
    validate_doi (pys "10.1016/j.softx.2019.100263") = none ∧
    validate_doi (pys "not-a-doi") = some ValidationFailure.invalidFormat ∧
    validate_doi (pys "") = some ValidationFailure.emptyDoi := by
  refine ⟨fun s => ?_, fun s => ?_, by decide, by decide, by decide⟩
  · unfold validate_doi
    by_cases h : (pyStrip s).isEmpty
    · simp [h, List.isEmpty_iff.mp h]
    · have h' : ¬ pyStrip s = [] := by simpa [List.isEmpty_iff] using h
      simp only [h, if_false, Bool.false_eq_true]
      split <;> simp [h']
  · unfold validate_doi
    by_cases h : (pyStrip s).isEmpty
    · have h0 : pyStrip s = [] := List.isEmpty_iff.mp h
      simp [h, h0, doiPatternMatch]
    · simp only [h, if_false, Bool.false_eq_true]
      split <;> simp_all

/-- C6: `detect_duplicates` is a single forward pass that keeps the
first occurrence of each normalized key — the returned unique items form
a sublist of the input (original order preserved) — and on
`["10.1/A", "10.1/a", "10.1/B"]` it returns
unique = `["10.1/A", "10.1/B"]` and duplicates = `[(2, "10.1/a", 1)]`,
the duplicate referencing the first occurrence's 1-based position. -/
theorem claim_C6 :
    (∀ items : List PyStr, List.Sublist (detect_duplicates items).1 items) ∧
    detect_duplicates [pys "10.1/A", pys "10.1/a", pys "10.1/B"] =
      ([pys "10.1/A", pys "10.1/B"], [(2, pys "10.1/a", 1)]) :=
  ⟨fun items => detectDupGo_sublist items [] 0, by decide⟩

/-- C1 (counterexample): on the input `["10.1/X", "bad", "10.1/X"]` in
DOI mode the report does not have invalid = 1 and unique = 1 with
processing set `["10.1/X"]` — `"10.1/X"` itself fails `DOI_PATTERN`
(which requires 4–9 digits after `10.`), so all three items are
invalid. -/
theorem claim_C1_counterexample :
    ¬ ((validate_batch [pys "10.1/X", pys "bad", pys "10.1/X"] SearchMode.doi).invalid = 1 ∧
       (validate_batch [pys "10.1/X", pys "bad", pys "10.1/X"] SearchMode.doi).unique = 1 ∧
       (validate_batch [pys "10.1/X", pys "bad", pys "10.1/X"] SearchMode.doi).unique_items =
         [pys "10.1/X"]) := by
  decide

/-- C1 (amended): in DOI mode, validating
`["10.1234/X", "bad", "10.1234/X"]` (a grammar-valid DOI in place of
`"10.1/X"`) produces total = 3, invalid = 1 (the item at line 2),
unique = 1, and one duplicate record stating that position 2 of the
valid sublist (original line 3) duplicates position 1; the set of items
passed on to processing is exactly `["10.1234/X"]` for either value of
the skip-duplicates flag. -/
theorem claim_C1 :
    validate_batch [pys "10.1234/X", pys "bad", pys "10.1234/X"] SearchMode.doi =
      { total := 3, valid := 2, invalid := 1,
        invalid_items := [(2, pys "bad", ValidationFailure.invalidFormat)],
        unique := 1, duplicates := 1,
        duplicate_items := [(2, pys "10.1234/X", 1)],
        unique_items := [pys "10.1234/X"] } ∧
    (∀ skip : Bool,
      selectWorkingSet skip
        (validate_batch [pys "10.1234/X", pys "bad", pys "10.1234/X"] SearchMode.doi) =
        [pys "10.1234/X"]) := by
  refine ⟨by decide, fun skip => ?_⟩
  cases skip <;> decide

/-- C2: for every input list and regardless of the skip-duplicates flag,
the working set handed to processing is the same unique,
validity-filtered list: both branches of the conditional in `main`
assign `validation_report['unique_items']`. -/
theorem claim_C2 :
    ∀ (items : List PyStr) (mode : SearchMode) (a b : Bool),
      selectWorkingSet a (validate_batch items mode) =
        selectWorkingSet b (validate_batch items mode) ∧
      selectWorkingSet a (validate_batch items mode) =
        (validate_batch items mode).unique_items := by
  intro items mode a b
  constructor <;> simp [selectWorkingSet]

theorem isOkB_search_scopus_api (resp : HttpOutcome (List ScopusEntry))
    (eff : NetEffects) : isOkB (search_scopus_api false resp eff) = true := by
  unfold search_scopus_api
  rw [if_neg (by simp)]
  rcases resp with ⟨code, body⟩ | _
  · dsimp only
    split
    · cases body <;> rfl
    · split
      · rfl
      · split <;> rfl
  · rfl

theorem isOkB_search_scopus_api_title (resp : HttpOutcome (List ScopusEntry))
    (eff : NetEffects) : isOkB (search_scopus_api_title false resp eff) = true := by
  unfold search_scopus_api_title
  rw [if_neg (by simp)]
  rcases resp with ⟨code, body⟩ | _
  · dsimp only
    split
    · cases body <;> rfl
    · split
      · rfl
      · split <;> rfl
  · rfl

theorem isOkB_search_openalex_doi (resp : HttpOutcome (Option PyStr))
    (eff : NetEffects) : isOkB (search_openalex_doi false resp eff) = true := by
  unfold search_openalex_doi
  rw [if_neg (by simp)]
  rcases resp with ⟨code, body⟩ | _
  · dsimp only
    split <;> rfl
  · rfl

theorem isOkB_search_openalex_title (resp : HttpOutcome (List OAWork))
    (eff : NetEffects) : isOkB (search_openalex_title false resp eff) = true := by
  unfold search_openalex_title
  rw [if_neg (by simp)]
  rcases resp with ⟨code, body⟩ | _
  · dsimp only
    split
    · cases body <;> rfl
    · rfl
  · rfl

/-- C4 (counterexample): the fallback call `search_openalex_doi` does
not sleep the fixed 5-unit backoff on HTTP 429 — it treats 429 like any
other non-200 status (failure counted, `None` returned, no sleep), so
the claim's backoff clause is false for the fallback lookups. -/
theorem claim_C4_counterexample :
    search_openalex_doi false (HttpOutcome.response 429 none) ⟨0, 0, 0⟩ =
      Except.ok (none, ⟨1, 1, 0⟩) ∧
    (1 : Nat) ≠ 0 + 5 := by
  constructor
  · rfl
  · decide

/-- C4 (amended): every lookup-client call checks the interrupt flag
before dispatch and raises cancellation without making the request when
it is set; otherwise no call raises.  The two primary Scopus calls sleep
the fixed 5-unit backoff on HTTP 429 and count a failure (no retry); on
any other non-200 status, an empty 200 body, or a transport error they
count a failure and return all-null.  The fallback OpenAlex calls treat
HTTP 429 like any other non-200 status or transport error: failure
counted and all-null returned, with no backoff sleep. -/
theorem claim_C4 :
    (∀ (resp : HttpOutcome (List ScopusEntry)) (eff : NetEffects),
      search_scopus_api true resp eff = Except.error () ∧
      search_scopus_api_title true resp eff = Except.error ()) ∧
    (∀ (resp : HttpOutcome (Option PyStr)) (eff : NetEffects),
      search_openalex_doi true resp eff = Except.error ()) ∧
    (∀ (resp : HttpOutcome (List OAWork)) (eff : NetEffects),
      search_openalex_title true resp eff = Except.error ()) ∧
    (∀ (resp : HttpOutcome (List ScopusEntry)) (eff : NetEffects),
      isOkB (search_scopus_api false resp eff) = true ∧
      isOkB (search_scopus_api_title false resp eff) = true) ∧
    (∀ (resp : HttpOutcome (Option PyStr)) (eff : NetEffects),
      isOkB (search_openalex_doi false resp eff) = true) ∧
    (∀ (resp : HttpOutcome (List OAWork)) (eff : NetEffects),
      isOkB (search_openalex_title false resp eff) = true) ∧
    (∀ (code : Nat) (body : List ScopusEntry) (eff : NetEffects), code ≠ 200 →
      search_scopus_api false (HttpOutcome.response code body) eff =
        Except.ok ((none, none),
          ⟨eff.requests_made + 1, eff.errors_count + 1,
           eff.sleep_units + (if code = 429 then 5 else 0)⟩) ∧
      search_scopus_api_title false (HttpOutcome.response code body) eff =
        Except.ok ((none, none, none),
          ⟨eff.requests_made + 1, eff.errors_count + 1,
           eff.sleep_units + (if code = 429 then 5 else 0)⟩)) ∧
    (∀ eff : NetEffects,
      search_scopus_api false HttpOutcome.transportError eff =
        Except.ok ((none, none),
          ⟨eff.requests_made + 1, eff.errors_count + 1, eff.sleep_units⟩) ∧
      search_scopus_api_title false HttpOutcome.transportError eff =
        Except.ok ((none, none, none),
          ⟨eff.requests_made + 1, eff.errors_count + 1, eff.sleep_units⟩)) ∧
    (∀ (code : Nat) (body : Option PyStr) (eff : NetEffects), code ≠ 200 →
      search_openalex_doi false (HttpOutcome.response code body) eff =
        Except.ok (none,
          ⟨eff.requests_made + 1, eff.errors_count + 1, eff.sleep_units⟩)) ∧
    (∀ eff : NetEffects,
      search_openalex_doi false HttpOutcome.transportError eff =
        Except.ok (none,
          ⟨eff.requests_made + 1, eff.errors_count + 1, eff.sleep_units⟩)) ∧
    (∀ (code : Nat) (body : List OAWork) (eff : NetEffects), code ≠ 200 →
      search_openalex_title false (HttpOutcome.response code body) eff =
        Except.ok ((none, none),
          ⟨eff.requests_made + 1, eff.errors_count + 1, eff.sleep_units⟩)) ∧
    (∀ eff : NetEffects,
      search_openalex_title false HttpOutcome.transportError eff =
        Except.ok ((none, none),
          ⟨eff.requests_made + 1, eff.errors_count + 1, eff.sleep_units⟩)) := by
  refine ⟨fun resp eff => ⟨rfl, rfl⟩, fun resp eff => rfl, fun resp eff => rfl,
    fun resp eff => ⟨isOkB_search_scopus_api resp eff,
      isOkB_search_scopus_api_title resp eff⟩,
    fun resp eff => isOkB_search_openalex_doi resp eff,
    fun resp eff => isOkB_search_openalex_title resp eff,
    fun code body eff h => ?_, fun eff => ⟨rfl, rfl⟩,
    fun code body eff h => ?_, fun eff => rfl,
    fun code body eff h => ?_, fun eff => rfl⟩
  · constructor
    · unfold search_scopus_api
      rw [if_neg (by simp)]
      dsimp only
      rw [if_neg h]
      by_cases h401 : code = 401
      · subst h401; simp
      · by_cases h429 : code = 429
        · subst h429; simp
        · rw [if_neg h401, if_neg h429, if_neg h429]; simp
    · unfold search_scopus_api_title
      rw [if_neg (by simp)]
      dsimp only
      rw [if_neg h]
      by_cases h401 : code = 401
      · subst h401; simp
      · by_cases h429 : code = 429
        · subst h429; simp
        · rw [if_neg h401, if_neg h429, if_neg h429]; simp
  · unfold search_openalex_doi
    rw [if_neg (by simp)]
    dsimp only
    rw [if_neg h]
  · unfold search_openalex_title
    rw [if_neg (by simp)]
    dsimp only
    rw [if_neg h]

/-- C4 (witness): concrete instantiations discharging the non-200
hypotheses of `claim_C4` — a primary Scopus call on 429 sleeps 5 units,
the fallback OpenAlex DOI call on 429 does not sleep, and both count the
failure. -/
theorem claim_C4_witness :
    search_scopus_api false (HttpOutcome.response 429 []) ⟨2, 3, 4⟩ =
      Except.ok ((none, none), ⟨3, 4, 9⟩) ∧
    search_openalex_doi false (HttpOutcome.response 404 none) ⟨0, 0, 0⟩ =
      Except.ok (none, ⟨1, 1, 0⟩) ∧
    search_openalex_title false (HttpOutcome.response 429 []) ⟨0, 0, 0⟩ =
      Except.ok ((none, none), ⟨1, 1, 0⟩) := by
  refine ⟨?_, ?_, ?_⟩
  · have h := (claim_C4.2.2.2.2.2.2.1 429 [] ⟨2, 3, 4⟩ (by decide)).1
    simpa using h
  · exact claim_C4.2.2.2.2.2.2.2.2.1 404 none ⟨0, 0, 0⟩ (by decide)
  · exact claim_C4.2.2.2.2.2.2.2.2.2.2.1 429 [] ⟨0, 0, 0⟩ (by decide)

/-- C10: a lookup service answering HTTP 200 with zero matching entries
also increments the error counter (both in the primary Scopus search and
in the OpenAlex title search), and the `Errors` figure of the final
summary is exactly that counter — so not-found outcomes are counted as
errors. -/
theorem claim_C10 :
    (∀ eff : NetEffects,
      search_scopus_api false (HttpOutcome.response 200 []) eff =
        Except.ok ((none, none),
          ⟨eff.requests_made + 1, eff.errors_count + 1, eff.sleep_units⟩)) ∧
    (∀ eff : NetEffects,
      search_openalex_title false (HttpOutcome.response 200 []) eff =
        Except.ok ((none, none),
          ⟨eff.requests_made + 1, eff.errors_count + 1, eff.sleep_units⟩)) ∧
    (∀ (ids : List (Option PyStr)) (eff : NetEffects) (hits : Nat),
      (finalSummary ids eff hits).errors = eff.errors_count) :=
  ⟨fun _ => rfl, fun _ => rfl, fun _ _ _ => rfl⟩

theorem processingLoop_eq_append {β : Type} (f : PyStr → β) :
    ∀ (l : List PyStr) (acc : List β),
      processingLoop f l acc = acc ++ l.map f := by
  intro l
  induction l with
  | nil => intro acc; simp [processingLoop]
  | cons item rest ih =>
    intro acc
    rw [processingLoop, ih]
    simp

/-- C3: for every per-item record function and every working list,
processing the first ten items, checkpointing after item ten, and
resuming from that checkpoint yields exactly the record sequence of one
uninterrupted run — no duplicated and no missing rows. -/
theorem claim_C3 {β : Type} (f : PyStr → β) (items : List PyStr)
    (mode : SearchMode) (total now : Nat) :
    resumeRun f items (checkpointAfter f items mode total now 10) =
      runFromStart f items := by
  unfold resumeRun checkpointAfter save_checkpoint runFromStart
  rw [processingLoop_eq_append, processingLoop_eq_append,
    processingLoop_eq_append]
  simp only [List.nil_append, Nat.zero_add, ← List.map_append,
    List.take_append_drop]

theorem search_openalex_title_false_eq (resp : HttpOutcome (List OAWork))
    (eff : NetEffects) :
    ∃ eff', search_openalex_title false resp eff =
      Except.ok (oaTitleFallbackOf resp, eff') := by
  rcases resp with ⟨code, body⟩ | _
  · by_cases h : code = 200
    · subst h
      cases body with
      | nil => exact ⟨_, rfl⟩
      | cons w ws => exact ⟨_, rfl⟩
    · refine ⟨⟨eff.requests_made + 1, eff.errors_count + 1, eff.sleep_units⟩, ?_⟩
      unfold search_openalex_title oaTitleFallbackOf
      rw [if_neg (by simp)]
      dsimp only
      rw [if_neg h, if_neg h]
  · exact ⟨_, rfl⟩

theorem search_openalex_doi_false_eq (resp : HttpOutcome (Option PyStr))
    (eff : NetEffects) :
    ∃ eff', search_openalex_doi false resp eff =
      Except.ok (oaDoiFallbackTitleOf resp, eff') := by
  rcases resp with ⟨code, body⟩ | _
  · by_cases h : code = 200
    · subst h
      exact ⟨_, rfl⟩
    · refine ⟨⟨eff.requests_made + 1, eff.errors_count + 1, eff.sleep_units⟩, ?_⟩
      unfold search_openalex_doi oaDoiFallbackTitleOf
      rw [if_neg (by simp)]
      dsimp only
      rw [if_neg h, if_neg h]
  · exact ⟨_, rfl⟩

/-- C8: processing one item writes to the cache exactly when caching is
enabled, the item was not served from the cache, and the lookup produced
a (truthy) Scopus ID — and then the write stores the successful record's
fields under the item's normalized key; in every other case (cache hit,
disabled cache, failed or not-found lookup) the cache is left
unchanged.  Stated for both the DOI and the title processor. -/
theorem claim_C8 :
    (∀ (flag : Bool) (primary : HttpOutcome (List ScopusEntry))
       (fallback : HttpOutcome (Option PyStr)) (now : Nat) (item : PyStr)
       (uc : Bool) (st : RunState) (rec : DoiRecord) (st' : RunState),
      process_doi_item flag primary fallback now item uc st =
          Except.ok (rec, st') →
      (if uc = true ∧ rec.cached = false ∧ pyTruthy rec.scopus_id = true then
        st'.cache =
          cacheSet now st.cache item rec.title rec.scopus_id none sourceScopus
      else st'.cache = st.cache)) ∧
    (∀ (flag : Bool) (primary : HttpOutcome (List ScopusEntry))
       (fallback : HttpOutcome (List OAWork)) (now : Nat) (item : PyStr)
       (uc : Bool) (st : RunState) (rec : TitleRecord) (st' : RunState),
      process_title_item flag primary fallback now item uc st =
          Except.ok (rec, st') →
      (if uc = true ∧ rec.cached = false ∧ pyTruthy rec.scopus_id = true then
        st'.cache =
          cacheSet now st.cache item rec.found_title rec.scopus_id rec.doi
            sourceScopus
      else st'.cache = st.cache)) := by
  constructor
  · intro flag primary fallback now item uc st rec st' hp
    unfold process_doi_item at hp
    split at hp
    · simp only [Except.ok.injEq, Prod.mk.injEq] at hp
      obtain ⟨hrec, hst⟩ := hp
      subst hrec
      subst hst
      rw [if_neg (by simp)]
    · rcases hs : search_scopus_api flag primary st.eff with e | ⟨⟨title, sid⟩, eff1⟩
      · rw [hs] at hp
        simp at hp
      · rw [hs] at hp
        dsimp only at hp
        cases hsid : pyTruthy sid
        · simp only [hsid, Bool.false_eq_true, if_false, Bool.false_and] at hp
          rcases ho : search_openalex_doi flag fallback eff1 with e | ⟨title2, eff2⟩
          · rw [ho] at hp
            simp at hp
          · rw [ho] at hp
            dsimp only at hp
            simp only [Except.ok.injEq, Prod.mk.injEq] at hp
            obtain ⟨hrec, hst⟩ := hp
            subst hrec
            subst hst
            rw [if_neg (by simp [hsid])]
        · simp only [hsid, eq_self_iff_true, if_true, Bool.true_and] at hp
          simp only [Except.ok.injEq, Prod.mk.injEq] at hp
          obtain ⟨hrec, hst⟩ := hp
          subst hrec
          subst hst
          by_cases huc : uc = true
          · rw [if_pos ⟨huc, rfl, hsid⟩]
            dsimp only
            rw [if_pos huc]
          · rw [if_neg (by simp [huc])]
            dsimp only
            rw [if_neg huc]
  · intro flag primary fallback now item uc st rec st' hp
    unfold process_title_item at hp
    split at hp
    · simp only [Except.ok.injEq, Prod.mk.injEq] at hp
      obtain ⟨hrec, hst⟩ := hp
      subst hrec
      subst hst
      rw [if_neg (by simp)]
    · rcases hs : search_scopus_api_title flag primary st.eff with e | ⟨⟨title, sid, d⟩, eff1⟩
      · rw [hs] at hp
        simp at hp
      · rw [hs] at hp
        dsimp only at hp
        cases hsid : pyTruthy sid
        · simp only [hsid, Bool.false_eq_true, if_false, Bool.false_and] at hp
          rcases ho : search_openalex_title flag fallback eff1 with e | ⟨⟨title2, doi2⟩, eff2⟩
          · rw [ho] at hp
            simp at hp
          · rw [ho] at hp
            dsimp only at hp
            simp only [Except.ok.injEq, Prod.mk.injEq] at hp
            obtain ⟨hrec, hst⟩ := hp
            subst hrec
            subst hst
            rw [if_neg (by simp [hsid])]
        · simp only [hsid, eq_self_iff_true, if_true, Bool.true_and] at hp
          simp only [Except.ok.injEq, Prod.mk.injEq] at hp
          obtain ⟨hrec, hst⟩ := hp
          subst hrec
          subst hst
          by_cases huc : uc = true
          · rw [if_pos ⟨huc, rfl, hsid⟩]
            dsimp only
            rw [if_pos huc]
          · rw [if_neg (by simp [huc])]
            dsimp only
            rw [if_neg huc]

/-- C8 (witness): a concrete successful DOI lookup with caching enabled
writes exactly the successful record under the normalized key, per
`claim_C8`. -/
theorem claim_C8_witness :
    process_doi_item false wDoiPrimaryFound HttpOutcome.transportError 7
        (pys "10.1234/X") true wState0 =
      Except.ok (⟨pys "10.1234/X", some (pys "T"), some (pys "SID"), false⟩,
        ⟨⟨1, 0, 1⟩, 0,
         [(pys "10.1234/x",
           ⟨some (pys "T"), some (pys "SID"), none, sourceScopus, 7⟩)]⟩) ∧
    (if true = true ∧
        (⟨pys "10.1234/X", some (pys "T"), some (pys "SID"), false⟩ :
          DoiRecord).cached = false ∧
        pyTruthy (⟨pys "10.1234/X", some (pys "T"), some (pys "SID"), false⟩ :
          DoiRecord).scopus_id = true then
      (⟨⟨1, 0, 1⟩, 0,
        [(pys "10.1234/x",
          ⟨some (pys "T"), some (pys "SID"), none, sourceScopus, 7⟩)]⟩ :
        RunState).cache =
        cacheSet 7 wState0.cache (pys "10.1234/X") (some (pys "T"))
          (some (pys "SID")) none sourceScopus
    else
      (⟨⟨1, 0, 1⟩, 0,
        [(pys "10.1234/x",
          ⟨some (pys "T"), some (pys "SID"), none, sourceScopus, 7⟩)]⟩ :
        RunState).cache = wState0.cache) := by
  have h : process_doi_item false wDoiPrimaryFound HttpOutcome.transportError 7
      (pys "10.1234/X") true wState0 =
    Except.ok (⟨pys "10.1234/X", some (pys "T"), some (pys "SID"), false⟩,
      ⟨⟨1, 0, 1⟩, 0,
       [(pys "10.1234/x",
         ⟨some (pys "T"), some (pys "SID"), none, sourceScopus, 7⟩)]⟩) := rfl
  exact ⟨h, claim_C8.1 false wDoiPrimaryFound HttpOutcome.transportError 7
    (pys "10.1234/X") true wState0 _ _ h⟩

/-- C9: whenever the item is not served from the cache and the primary
lookup yields no (truthy) Scopus ID, the emitted record's found title
and DOI are exactly what the fallback call yields — discarding any title
the primary returned — and analogously in DOI mode the record's title is
the fallback's title. -/
theorem claim_C9 :
    (∀ (primary : HttpOutcome (List ScopusEntry))
       (fallback : HttpOutcome (List OAWork)) (now : Nat) (item : PyStr)
       (uc : Bool) (st : RunState) (t sid d : Option PyStr)
       (eff1 : NetEffects) (rec : TitleRecord) (st' : RunState),
      search_scopus_api_title false primary st.eff =
          Except.ok ((t, sid, d), eff1) →
      pyTruthy sid = false →
      process_title_item false primary fallback now item uc st =
          Except.ok (rec, st') →
      rec.cached = false →
      (rec.found_title, rec.doi) = oaTitleFallbackOf fallback) ∧
    (∀ (primary : HttpOutcome (List ScopusEntry))
       (fallback : HttpOutcome (Option PyStr)) (now : Nat) (item : PyStr)
       (uc : Bool) (st : RunState) (t sid : Option PyStr)
       (eff1 : NetEffects) (rec : DoiRecord) (st' : RunState),
      search_scopus_api false primary st.eff = Except.ok ((t, sid), eff1) →
      pyTruthy sid = false →
      process_doi_item false primary fallback now item uc st =
          Except.ok (rec, st') →
      rec.cached = false →
      rec.title = oaDoiFallbackTitleOf fallback) := by
  constructor
  · intro primary fallback now item uc st t sid d eff1 rec st' hs hsid hp hcached
    unfold process_title_item at hp
    split at hp
    · simp only [Except.ok.injEq, Prod.mk.injEq] at hp
      obtain ⟨hrec, hst⟩ := hp
      subst hrec
      simp at hcached
    · rw [hs] at hp
      dsimp only at hp
      simp only [hsid, Bool.false_eq_true, if_false, Bool.false_and] at hp
      obtain ⟨eff', hoa⟩ := search_openalex_title_false_eq fallback eff1
      rcases hfb : oaTitleFallbackOf fallback with ⟨ft, fd⟩
      rw [hfb] at hoa
      rw [hoa] at hp
      dsimp only at hp
      simp only [Except.ok.injEq, Prod.mk.injEq] at hp
      obtain ⟨hrec, hst⟩ := hp
      subst hrec
      rfl
  · intro primary fallback now item uc st t sid eff1 rec st' hs hsid hp hcached
    unfold process_doi_item at hp
    split at hp
    · simp only [Except.ok.injEq, Prod.mk.injEq] at hp
      obtain ⟨hrec, hst⟩ := hp
      subst hrec
      simp at hcached
    · rw [hs] at hp
      dsimp only at hp
      simp only [hsid, Bool.false_eq_true, if_false, Bool.false_and] at hp
      obtain ⟨eff', hoa⟩ := search_openalex_doi_false_eq fallback eff1
      rw [hoa] at hp
      dsimp only at hp
      simp only [Except.ok.injEq, Prod.mk.injEq] at hp
      obtain ⟨hrec, hst⟩ := hp
      subst hrec
      rfl

/-- C9 (witness): a concrete primary response with a recovered title but
no Scopus ID, against a failing fallback — the emitted record's found
title and DOI are null, the primary's title having been discarded, per
`claim_C9` (both modes). -/
theorem claim_C9_witness :
    search_scopus_api_title false wPrimaryNoId wState0.eff =
      Except.ok ((some (pys "T"), none, some (pys "D")), ⟨1, 0, 0⟩) ∧
    pyTruthy none = false ∧
    process_title_item false wPrimaryNoId HttpOutcome.transportError 0
        (pys "q") false wState0 =
      Except.ok (⟨pys "q", none, none, none, false⟩, ⟨⟨2, 1, 1⟩, 0, []⟩) ∧
    ((⟨pys "q", none, none, none, false⟩ : TitleRecord).found_title,
     (⟨pys "q", none, none, none, false⟩ : TitleRecord).doi) =
      oaTitleFallbackOf HttpOutcome.transportError ∧
    search_scopus_api false wPrimaryNoId wState0.eff =
      Except.ok ((some (pys "T"), none), ⟨1, 0, 0⟩) ∧
    process_doi_item false wPrimaryNoId HttpOutcome.transportError 7
        (pys "10.1234/X") true wState0 =
      Except.ok (⟨pys "10.1234/X", none, none, false⟩, ⟨⟨2, 1, 1⟩, 0, []⟩) ∧
    (⟨pys "10.1234/X", none, none, false⟩ : DoiRecord).title =
      oaDoiFallbackTitleOf HttpOutcome.transportError := by
  have h1 : search_scopus_api_title false wPrimaryNoId wState0.eff =
      Except.ok ((some (pys "T"), none, some (pys "D")), ⟨1, 0, 0⟩) := rfl
  have h3 : process_title_item false wPrimaryNoId HttpOutcome.transportError 0
      (pys "q") false wState0 =
    Except.ok (⟨pys "q", none, none, none, false⟩, ⟨⟨2, 1, 1⟩, 0, []⟩) := rfl
  have h5 : search_scopus_api false wPrimaryNoId wState0.eff =
      Except.ok ((some (pys "T"), none), ⟨1, 0, 0⟩) := rfl
  have h6 : process_doi_item false wPrimaryNoId HttpOutcome.transportError 7
      (pys "10.1234/X") true wState0 =
    Except.ok (⟨pys "10.1234/X", none, none, false⟩, ⟨⟨2, 1, 1⟩, 0, []⟩) := rfl
  refine ⟨h1, rfl, h3, ?_, h5, h6, ?_⟩
  · exact claim_C9.1 wPrimaryNoId HttpOutcome.transportError 0 (pys "q") false
      wState0 (some (pys "T")) none (some (pys "D")) ⟨1, 0, 0⟩ _ _ h1 rfl h3 rfl
  · exact claim_C9.2 wPrimaryNoId HttpOutcome.transportError 7 (pys "10.1234/X")
      true wState0 (some (pys "T")) none ⟨1, 0, 0⟩ _ _ h5 rfl h6 rfl

end ScopusExtractor
